import Mathlib

/-!
Verification of `airflow/providers/slack/hooks/slack_webhook.py`
(`SlackWebhookHook`): token resolution (`_get_token`), payload
construction (`_build_slack_message`) and the outbound request built by
`execute`.

Modelling conventions:
* Python optional strings (`None` or `str`) are `Option String`; Python
  truthiness of such a value is "is `some s` with `s` non-empty".
* `conn.extra_dejson` is modelled as an association list from keys to
  string values; `extra.get(k, '')` is `(extra.lookup k).getD ""`.
* The credential resolver (`self.get_connection`) is a parameter
  `lookup : String → Option Connection`; `none` means the connection id
  is unknown (Airflow raises a not-found error there).
* `warnings.warn` is modelled by counting emitted deprecation warnings.
* Attachments/blocks elements are opaque pass-through values, modelled
  by `String` stand-ins.
* The JSON dict `cmd` built by `_build_slack_message` is modelled as the
  insertion-ordered key/value list that `json.dumps` would serialize.
* `self.run(...)` performs the network call; `execute` is modelled as
  the request value it hands to `run`.
-/

/-- Python truthiness of an optional string: `None` and `""` are falsy. -/
def truthyOptStr : Option String → Bool
  | none => false
  | some s => !s.isEmpty

/-- Python truthiness of an optional list: `None` and `[]` are falsy. -/
def truthyOptList : Option (List String) → Bool
  | none => false
  | some l => !l.isEmpty

/-- An Airflow connection record, as `_get_token` reads it:
`getattr(conn, 'password', None)` and `conn.extra_dejson`. -/
structure Connection where
  password : Option String
  extra : List (String × String)
deriving DecidableEq

/-- The errors `_get_token` can surface: the `AirflowException` it raises
itself, and the not-found error propagated from `get_connection`. -/
inductive TokenError where
  | airflowException
  | notFound
deriving DecidableEq

/-- Embedding of `SlackWebhookHook._get_token(token, http_conn_id)`.
Returns the resolved token together with the number of deprecation
warnings emitted, or the error raised. -/
def getToken (lookup : String → Option Connection)
    (token : Option String) (http_conn_id : Option String) :
    Except TokenError (String × Nat) :=
  if truthyOptStr token then
    Except.ok (token.getD "", 0)
  else if truthyOptStr http_conn_id then
    match lookup (http_conn_id.getD "") with
    | none => Except.error TokenError.notFound
    | some conn =>
      if truthyOptStr conn.password then
        Except.ok (conn.password.getD "", 0)
      else
        let web_token := (conn.extra.lookup "webhook_token").getD ""
        if !web_token.isEmpty then
          Except.ok (web_token, 1)
        else
          Except.ok (web_token, 0)
  else
    Except.error TokenError.airflowException

/-- A JSON value as it appears in the `cmd` dict of
`_build_slack_message`: a string field, the integer `1` of
`link_names`, or a pass-through list (`attachments` / `blocks`). -/
inductive SlackValue where
  | str : String → SlackValue
  | num : Nat → SlackValue
  | arr : List String → SlackValue
deriving DecidableEq

/-- The state of a constructed `SlackWebhookHook`: the fields set by
`__init__`. -/
structure SlackWebhookHook where
  webhook_token : String
  message : String
  attachments : Option (List String)
  blocks : Option (List String)
  channel : Option String
  username : Option String
  icon_emoji : Option String
  icon_url : Option String
  link_names : Bool
  proxy : Option String
deriving DecidableEq

/-- Embedding of `SlackWebhookHook.__init__`: resolves the token via
`_get_token` (propagating its error) and stores the remaining fields
unchanged.  Returns the hook together with the warning count. -/
def mkHook (lookup : String → Option Connection)
    (http_conn_id webhook_token : Option String) (message : String)
    (attachments blocks : Option (List String))
    (channel username icon_emoji icon_url : Option String)
    (link_names : Bool) (proxy : Option String) :
    Except TokenError (SlackWebhookHook × Nat) :=
  match getToken lookup webhook_token http_conn_id with
  | Except.error e => Except.error e
  | Except.ok (tok, w) =>
    Except.ok ({ webhook_token := tok, message := message,
                 attachments := attachments, blocks := blocks,
                 channel := channel, username := username,
                 icon_emoji := icon_emoji, icon_url := icon_url,
                 link_names := link_names, proxy := proxy }, w)

/-- Embedding of `SlackWebhookHook._build_slack_message`: the `cmd` dict
in insertion order (what `json.dumps(cmd)` serializes). -/
def buildSlackMessage (h : SlackWebhookHook) : List (String × SlackValue) :=
  (if truthyOptStr h.channel then [("channel", SlackValue.str (h.channel.getD ""))] else [])
  ++ (if truthyOptStr h.username then [("username", SlackValue.str (h.username.getD ""))] else [])
  ++ (if truthyOptStr h.icon_emoji then [("icon_emoji", SlackValue.str (h.icon_emoji.getD ""))] else [])
  ++ (if truthyOptStr h.icon_url then [("icon_url", SlackValue.str (h.icon_url.getD ""))] else [])
  ++ (if h.link_names then [("link_names", SlackValue.num 1)] else [])
  ++ (if truthyOptList h.attachments then [("attachments", SlackValue.arr (h.attachments.getD []))] else [])
  ++ (if truthyOptList h.blocks then [("blocks", SlackValue.arr (h.blocks.getD []))] else [])
  ++ [("text", SlackValue.str h.message)]

/-- The request `execute` hands to `self.run`. -/
structure HttpRequest where
  endpoint : String
  data : List (String × SlackValue)
  headers : List (String × String)
  proxies : List (String × String)
  check_response : Bool
deriving DecidableEq

/-- Embedding of `SlackWebhookHook.execute`: computes the proxies
mapping, builds the message, and issues the single `run` call.  There
is no guard on `webhook_token`: the call is always made. -/
def execute (h : SlackWebhookHook) : HttpRequest :=
  { endpoint := h.webhook_token,
    data := buildSlackMessage h,
    headers := [("Content-type", "application/json")],
    proxies := if truthyOptStr h.proxy then [("https", h.proxy.getD "")] else [],
    check_response := true }

/-- A resolver whose every connection has no password and empty extra. -/
def lookupEmptyConn : String → Option Connection :=
  fun _ => some { password := none, extra := [] }

/-- The hook obtained from `lookupEmptyConn` with only a conn id given:
its resolved webhook token is the empty string. -/
def hookEmptyTok : SlackWebhookHook :=
  { webhook_token := "", message := "", attachments := none, blocks := none,
    channel := none, username := none, icon_emoji := none, icon_url := none,
    link_names := false, proxy := none }

/-- A hook with a proxy configured, for concrete evaluation. -/
def hookWithProxy : SlackWebhookHook :=
  { webhook_token := "T00/B00/XXX", message := "hello",
    attachments := none, blocks := none,
    channel := none, username := none, icon_emoji := none, icon_url := none,
    link_names := false, proxy := some "http://p:8080" }

/-- Helper: membership in an `if`-guarded singleton list. -/
theorem mem_ite_singleton {α : Type} {c : Prop} [Decidable c] {x a : α} :
    a ∈ (if c then [x] else []) ↔ c ∧ a = x := by
  split <;> simp_all

/-- Helper: a string different from `""` has `isEmpty = false`. -/
theorem isEmpty_false_of_ne {s : String} (h : s ≠ "") : s.isEmpty = false := by
  cases he : s.isEmpty
  · rfl
  · exact absurd ((String.isEmpty_iff s).mp he) h

/-- Helper: `truthyOptStr` on a present string is its non-emptiness. -/
theorem truthyOptStr_some (s : String) : truthyOptStr (some s) = !s.isEmpty := rfl

/-- C1: a non-empty explicit webhook token is returned as is by
`_get_token`, for every connection name and every resolver, with no
warning emitted. -/
theorem getToken_explicit (lookup : String → Option Connection)
    (tok : String) (cid : Option String) (htok : tok ≠ "") :
    getToken lookup (some tok) cid = Except.ok (tok, 0) := by
  have ht : truthyOptStr (some tok) = true := by
    simp [truthyOptStr_some, isEmpty_false_of_ne htok]
  simp [getToken, ht]

/-- C1 witness: evaluated at the token `"t"` and connection name `"c"`. -/
theorem getToken_explicit_witness :
    "t" ≠ "" ∧ getToken lookupEmptyConn (some "t") (some "c") = Except.ok ("t", 0) :=
  ⟨by decide, getToken_explicit lookupEmptyConn "t" (some "c") (by decide)⟩

/-- C3: with a falsy explicit token and a falsy connection name,
`_get_token` raises `AirflowException`; the resolver is never consulted
(the result holds for every `lookup`), so no I/O happens first. -/
theorem getToken_no_source (lookup : String → Option Connection)
    (tok cid : Option String)
    (htok : truthyOptStr tok = false) (hcid : truthyOptStr cid = false) :
    getToken lookup tok cid = Except.error TokenError.airflowException := by
  simp [getToken, htok, hcid]

/-- C3 witness: evaluated at `none`, `none`. -/
theorem getToken_no_source_witness :
    truthyOptStr none = false ∧
      getToken lookupEmptyConn none none = Except.error TokenError.airflowException :=
  ⟨by decide, getToken_no_source lookupEmptyConn none none (by decide) (by decide)⟩

/-- C4: a successful connection lookup yielding a falsy password and no
non-empty `webhook_token` extra makes `_get_token` return the empty
string (with no warning) rather than raise. -/
theorem getToken_empty_yield (lookup : String → Option Connection)
    (tok : Option String) (cid : String) (conn : Connection)
    (htok : truthyOptStr tok = false) (hcid : cid ≠ "")
    (hl : lookup cid = some conn)
    (hpw : truthyOptStr conn.password = false)
    (hwt : (conn.extra.lookup "webhook_token").getD "" = "") :
    getToken lookup tok (some cid) = Except.ok ("", 0) := by
  have hc : truthyOptStr (some cid) = true := by
    simp [truthyOptStr_some, isEmpty_false_of_ne hcid]
  have he : "".isEmpty = true := rfl
  simp [getToken, htok, hc, hl, hpw, hwt, he]

/-- C4 witness: evaluated at a resolver whose connection has no
password and empty extra. -/
theorem getToken_empty_yield_witness :
    lookupEmptyConn "c" = some { password := none, extra := [] } ∧
      getToken lookupEmptyConn none (some "c") = Except.ok ("", 0) :=
  ⟨rfl, getToken_empty_yield lookupEmptyConn none "c"
    { password := none, extra := [] }
    (by decide) (by decide) rfl (by decide) (by decide)⟩

/-- C5: a connection with a non-empty password resolves to that
password, with no warning, whatever `webhook_token` its extra holds. -/
theorem getToken_password (lookup : String → Option Connection)
    (tok : Option String) (cid pw : String) (conn : Connection)
    (htok : truthyOptStr tok = false) (hcid : cid ≠ "")
    (hl : lookup cid = some conn)
    (hpw : conn.password = some pw) (hpwne : pw ≠ "") :
    getToken lookup tok (some cid) = Except.ok (pw, 0) := by
  have hc : truthyOptStr (some cid) = true := by
    simp [truthyOptStr_some, isEmpty_false_of_ne hcid]
  have hp : truthyOptStr (some pw) = true := by
    simp [truthyOptStr_some, isEmpty_false_of_ne hpwne]
  simp [getToken, htok, hc, hl, hpw, hp]

/-- C5 witness: a connection carrying both a password and a
`webhook_token` extra resolves to the password, warning-free. -/
theorem getToken_password_witness :
    (fun _ => some { password := some "pw", extra := [("webhook_token", "x")] }
      : String → Option Connection) "c"
        = some { password := some "pw", extra := [("webhook_token", "x")] } ∧
      getToken
        (fun _ => some { password := some "pw", extra := [("webhook_token", "x")] })
        none (some "c") = Except.ok ("pw", 0) :=
  ⟨rfl, getToken_password
    (fun _ => some { password := some "pw", extra := [("webhook_token", "x")] })
    none "c" "pw" { password := some "pw", extra := [("webhook_token", "x")] }
    (by decide) (by decide) rfl rfl (by decide)⟩

/-- C6: a connection with a falsy password whose extra holds a
non-empty `webhook_token = x` resolves to `x` with exactly one
deprecation warning emitted. -/
theorem getToken_extra_token (lookup : String → Option Connection)
    (tok : Option String) (cid x : String) (conn : Connection)
    (htok : truthyOptStr tok = false) (hcid : cid ≠ "")
    (hl : lookup cid = some conn)
    (hpw : truthyOptStr conn.password = false)
    (hx : conn.extra.lookup "webhook_token" = some x) (hxne : x ≠ "") :
    getToken lookup tok (some cid) = Except.ok (x, 1) := by
  have hc : truthyOptStr (some cid) = true := by
    simp [truthyOptStr_some, isEmpty_false_of_ne hcid]
  simp [getToken, htok, hc, hl, hpw, hx, isEmpty_false_of_ne hxne]

/-- C6 witness: evaluated at a connection with no password and
`webhook_token = "X"` in its extra. -/
theorem getToken_extra_token_witness :
    (fun _ => some { password := none, extra := [("webhook_token", "X")] }
      : String → Option Connection) "c"
        = some { password := none, extra := [("webhook_token", "X")] } ∧
      getToken
        (fun _ => some { password := none, extra := [("webhook_token", "X")] })
        none (some "c") = Except.ok ("X", 1) :=
  ⟨rfl, getToken_extra_token
    (fun _ => some { password := none, extra := [("webhook_token", "X")] })
    none "c" "X" { password := none, extra := [("webhook_token", "X")] }
    (by decide) (by decide) rfl (by decide) rfl (by decide)⟩

/-- C10: with a non-empty explicit token, `_get_token` is independent of
the resolver (no connection lookup happens) and can never yield the
not-found error, even for an unknown connection name. -/
theorem getToken_no_lookup (lookup lookupOther : String → Option Connection)
    (tok : String) (cid : Option String) (htok : tok ≠ "") :
    getToken lookup (some tok) cid = getToken lookupOther (some tok) cid ∧
      getToken lookup (some tok) cid ≠ Except.error TokenError.notFound := by
  have ht : truthyOptStr (some tok) = true := by
    simp [truthyOptStr_some, isEmpty_false_of_ne htok]
  constructor
  · simp [getToken, ht]
  · simp [getToken, ht]

/-- C10 witness: an explicit token with a resolver that knows no
connection at all still resolves without a not-found error. -/
theorem getToken_no_lookup_witness :
    "t" ≠ "" ∧
      (getToken (fun _ => none) (some "t") (some "missing")
          = getToken lookupEmptyConn (some "t") (some "missing") ∧
        getToken (fun _ => none) (some "t") (some "missing")
          ≠ Except.error TokenError.notFound) :=
  ⟨by decide, getToken_no_lookup (fun _ => none) lookupEmptyConn "t" (some "missing") (by decide)⟩

/-- Helper: `truthyOptStr` is false on `none`. -/
theorem truthyOptStr_none : truthyOptStr none = false := rfl

/-- Helper: `truthyOptStr` is false on the empty string. -/
theorem truthyOptStr_empty : truthyOptStr (some "") = false := rfl

/-- C2: the payload of `_build_slack_message` holds exactly the key
`text` (bound to the message), plus each optional key exactly when its
field is truthy — `link_names` bound to the integer `1` only when the
flag is true — with no duplicate keys; with every optional field falsy
the payload is exactly the singleton `text` entry. -/
theorem buildSlackMessage_keys (h : SlackWebhookHook) :
    (∀ k v, (k, v) ∈ buildSlackMessage h ↔
      ((truthyOptStr h.channel = true ∧ k = "channel" ∧ v = SlackValue.str (h.channel.getD ""))
        ∨ (truthyOptStr h.username = true ∧ k = "username" ∧ v = SlackValue.str (h.username.getD ""))
        ∨ (truthyOptStr h.icon_emoji = true ∧ k = "icon_emoji" ∧ v = SlackValue.str (h.icon_emoji.getD ""))
        ∨ (truthyOptStr h.icon_url = true ∧ k = "icon_url" ∧ v = SlackValue.str (h.icon_url.getD ""))
        ∨ (h.link_names = true ∧ k = "link_names" ∧ v = SlackValue.num 1)
        ∨ (truthyOptList h.attachments = true ∧ k = "attachments" ∧ v = SlackValue.arr (h.attachments.getD []))
        ∨ (truthyOptList h.blocks = true ∧ k = "blocks" ∧ v = SlackValue.arr (h.blocks.getD []))
        ∨ (k = "text" ∧ v = SlackValue.str h.message))) ∧
    ((buildSlackMessage h).map Prod.fst).Nodup ∧
    (truthyOptStr h.channel = false → truthyOptStr h.username = false →
      truthyOptStr h.icon_emoji = false → truthyOptStr h.icon_url = false →
      h.link_names = false → truthyOptList h.attachments = false →
      truthyOptList h.blocks = false →
      buildSlackMessage h = [("text", SlackValue.str h.message)]) := by
  refine ⟨?_, ?_, ?_⟩
  · intro k v
    simp only [buildSlackMessage, List.mem_append, mem_ite_singleton,
      List.mem_singleton, Prod.mk.injEq, or_assoc]
  · cases hc : truthyOptStr h.channel <;>
      cases hu : truthyOptStr h.username <;>
      cases he : truthyOptStr h.icon_emoji <;>
      cases hi : truthyOptStr h.icon_url <;>
      cases hln : h.link_names <;>
      cases ha : truthyOptList h.attachments <;>
      cases hbl : truthyOptList h.blocks <;>
      simp [buildSlackMessage, hc, hu, he, hi, hln, ha, hbl]
  · intro h1 h2 h3 h4 h5 h6 h7
    simp [buildSlackMessage, h1, h2, h3, h4, h5, h6, h7]

/-- C2 witness: with every optional field unset the payload is exactly
the lone `text` entry. -/
theorem buildSlackMessage_keys_witness :
    buildSlackMessage hookEmptyTok = [("text", SlackValue.str "")] :=
  (buildSlackMessage_keys hookEmptyTok).2.2 rfl rfl rfl rfl rfl rfl rfl

/-- C9: setting `channel`, `username`, `icon_emoji` or `icon_url` to the
empty string yields the same payload as leaving it unset. -/
theorem buildSlackMessage_empty_like_unset (h : SlackWebhookHook) :
    buildSlackMessage { h with channel := some "" }
        = buildSlackMessage { h with channel := none } ∧
      buildSlackMessage { h with username := some "" }
        = buildSlackMessage { h with username := none } ∧
      buildSlackMessage { h with icon_emoji := some "" }
        = buildSlackMessage { h with icon_emoji := none } ∧
      buildSlackMessage { h with icon_url := some "" }
        = buildSlackMessage { h with icon_url := none } := by
  refine ⟨?_, ?_, ?_, ?_⟩ <;>
    simp [buildSlackMessage, truthyOptStr_empty, truthyOptStr_none]

/-- C9 witness: a concrete hook with `channel = ""` builds the same
payload as with `channel` unset. -/
theorem buildSlackMessage_empty_like_unset_witness :
    buildSlackMessage { hookEmptyTok with channel := some "" }
      = buildSlackMessage { hookEmptyTok with channel := none } :=
  (buildSlackMessage_empty_like_unset hookEmptyTok).1

/-- C7: with a truthy proxy `p`, the request built by `execute` carries
the proxies mapping `{"https": p}` with no `"http"` key; with a falsy
proxy the proxies mapping is empty. -/
theorem execute_proxies (h : SlackWebhookHook) (p : String) :
    (h.proxy = some p → p ≠ "" →
      (execute h).proxies = [("https", p)] ∧
        (execute h).proxies.lookup "http" = none) ∧
    (truthyOptStr h.proxy = false → (execute h).proxies = []) := by
  constructor
  · intro hp hne
    have ht : truthyOptStr (some p) = true := by
      rw [truthyOptStr_some, isEmpty_false_of_ne hne]
      rfl
    have hb : ("http" == "https") = false := by decide
    constructor
    · simp [execute, hp, ht]
    · simp [execute, hp, ht, List.lookup, hb]
  · intro hf
    simp [execute, hf]

/-- C7 witness: evaluated at a hook with proxy `"http://p:8080"`. -/
theorem execute_proxies_witness :
    hookWithProxy.proxy = some "http://p:8080" ∧ "http://p:8080" ≠ "" ∧
      ((execute hookWithProxy).proxies = [("https", "http://p:8080")] ∧
        (execute hookWithProxy).proxies.lookup "http" = none) :=
  ⟨rfl, by decide, (execute_proxies hookWithProxy "http://p:8080").1 rfl (by decide)⟩

/-- Helper: a truthy optional string defaults to a non-empty string. -/
theorem truthyOptStr_getD_ne {o : Option String} (h : truthyOptStr o = true) :
    o.getD "" ≠ "" := by
  cases o with
  | none => exact absurd h (by decide)
  | some s =>
    intro he
    rw [Option.getD_some] at he
    subst he
    exact absurd h (by decide)

/-- C8 counterexample: a hook built from a connection with no password
and no `webhook_token` extra stores the empty webhook token, and
`execute` still issues the HTTP POST — with the empty string as the
endpoint — contradicting the claim that no send happens while the
stored token is empty. -/
theorem execute_empty_token_cex :
    mkHook lookupEmptyConn (some "slack_default") none "" none none none none none none false none
        = Except.ok (hookEmptyTok, 0) ∧
      hookEmptyTok.webhook_token = "" ∧
      execute hookEmptyTok =
        { endpoint := "", data := [("text", SlackValue.str "")],
          headers := [("Content-type", "application/json")],
          proxies := [], check_response := true } :=
  ⟨rfl, rfl, rfl⟩

/-- C8 amended: `execute` issues the POST unconditionally with the
stored token as endpoint; for a hook built by `__init__`, that endpoint
is empty exactly when the explicit token was falsy and the connection
lookup yielded neither a non-empty password nor a non-empty
`webhook_token` extra. -/
theorem execute_empty_endpoint_iff (lookup : String → Option Connection)
    (http_conn_id webhook_token : Option String) (message : String)
    (attachments blocks : Option (List String))
    (channel username icon_emoji icon_url : Option String)
    (link_names : Bool) (proxy : Option String)
    (hk : SlackWebhookHook) (w : Nat)
    (hmk : mkHook lookup http_conn_id webhook_token message attachments blocks
        channel username icon_emoji icon_url link_names proxy = Except.ok (hk, w)) :
    (execute hk).endpoint = "" ↔
      (truthyOptStr webhook_token = false ∧
        ∃ conn, lookup (http_conn_id.getD "") = some conn ∧
          truthyOptStr conn.password = false ∧
          (conn.extra.lookup "webhook_token").getD "" = "") := by
  have hend : (execute hk).endpoint = hk.webhook_token := rfl
  rw [hend]
  unfold mkHook at hmk
  cases hg : getToken lookup webhook_token http_conn_id with
  | error e =>
    rw [hg] at hmk
    exact absurd hmk (by simp)
  | ok tw =>
    obtain ⟨t, w1⟩ := tw
    rw [hg] at hmk
    simp only [Except.ok.injEq, Prod.mk.injEq] at hmk
    obtain ⟨hhk, -⟩ := hmk
    rw [← hhk]
    cases h1 : truthyOptStr webhook_token with
    | true =>
      simp only [getToken, h1, if_true, Except.ok.injEq, Prod.mk.injEq] at hg
      obtain ⟨hgt, -⟩ := hg
      constructor
      · intro hte
        exact absurd (hgt ▸ hte) (truthyOptStr_getD_ne h1)
      · rintro ⟨hf, -⟩
        exact absurd hf (by decide)
    | false =>
      cases h2 : truthyOptStr http_conn_id with
      | false => simp [getToken, h1, h2] at hg
      | true =>
        cases hlc : lookup (http_conn_id.getD "") with
        | none => simp [getToken, h1, h2, hlc] at hg
        | some conn =>
          cases h3 : truthyOptStr conn.password with
          | true =>
            simp only [getToken, h1, h2, hlc, h3, if_true, if_false,
              Bool.false_eq_true, Except.ok.injEq, Prod.mk.injEq] at hg
            obtain ⟨hgt, -⟩ := hg
            constructor
            · intro hte
              exact absurd (hgt ▸ hte) (truthyOptStr_getD_ne h3)
            · rintro ⟨-, conn2, hc2, hp2, -⟩
              injection hc2 with hc2
              subst hc2
              rw [h3] at hp2
              cases hp2
          | false =>
            cases h4 : ((conn.extra.lookup "webhook_token").getD "").isEmpty with
            | true =>
              simp only [getToken, h1, h2, hlc, h3, h4, Bool.false_eq_true,
                if_false, if_true, Bool.not_true, Except.ok.injEq, Prod.mk.injEq] at hg
              obtain ⟨hgt, -⟩ := hg
              have hwt : (conn.extra.lookup "webhook_token").getD "" = "" :=
                (String.isEmpty_iff _).mp h4
              constructor
              · intro _
                exact ⟨rfl, conn, rfl, h3, hwt⟩
              · intro _
                rw [← hgt, hwt]
            | false =>
              simp only [getToken, h1, h2, hlc, h3, h4, Bool.false_eq_true,
                if_false, if_true, Bool.not_false, Except.ok.injEq, Prod.mk.injEq] at hg
              obtain ⟨hgt, -⟩ := hg
              constructor
              · intro hte
                rw [← hgt] at hte
                exact absurd ((String.isEmpty_iff _).mpr hte) (by rw [h4]; exact Bool.false_ne_true)
              · rintro ⟨-, conn2, hc2, -, hwt2⟩
                injection hc2 with hc2
                subst hc2
                rw [hwt2] at h4
                cases h4

/-- C8 amended witness: at the empty-yield connection, the issued
request's endpoint is the empty string. -/
theorem execute_empty_endpoint_iff_witness :
    mkHook lookupEmptyConn (some "slack_default") none "" none none none none none none false none
        = Except.ok (hookEmptyTok, 0) ∧
      (execute hookEmptyTok).endpoint = "" :=
  ⟨rfl, (execute_empty_endpoint_iff lookupEmptyConn (some "slack_default") none ""
      none none none none none none false none hookEmptyTok 0 rfl).mpr
    ⟨rfl, { password := none, extra := [] }, rfl, rfl, rfl⟩⟩
